/-
Verification of the MunLink Zambales municipal e-government backend.

Shallow embedding of the route handlers and models under apps/api:
  * apps/api/app.py               (serve_uploaded_file, the /uploads allowlist)
  * apps/api/routes/documents.py  (create_document_request, get_claim_ticket,
                                   public_verify_document)
  * apps/api/routes/benefits.py   (create_application, list_programs)
  * apps/api/models/password_reset.py (PasswordResetToken)

Database lookups (`Model.query.get`), the JWT identity, the parsed request
payload and the file-save helpers are passed to the embedded handlers as
explicit arguments: each argument's doc notes the source expression it
stands for.  Python truthiness on nullable integer columns (`if not
user.municipality_id`) is embedded as `pyTruthyInt`: `none` and `some 0`
are falsy.  Python truthiness on nullable string columns is `pyTruthyStr`:
`none` and `some ""` are falsy.  Timestamps are rationals measured in days;
money amounts are rationals.
-/
import Mathlib

namespace MunLink

/-- Python truthiness of a nullable integer column: `None` and `0` are falsy. -/
def pyTruthyInt : Option Int → Bool
  | none => false
  | some n => n != 0

/-- Python truthiness of a nullable string column: `None` and `''` are falsy. -/
def pyTruthyStr : Option String → Bool
  | none => false
  | some s => s != ""

/-- Python `str.lower()`, written over the character list so that it is
ASCII-faithful and kernel-computable. -/
def pyLower (s : String) : String :=
  String.mk (s.data.map Char.toLower)

/-- Python `str.strip()`: drop whitespace from both ends. -/
def pyStrip (s : String) : String :=
  String.mk
    (((s.data.dropWhile Char.isWhitespace).reverse.dropWhile
        Char.isWhitespace).reverse)

/-- Python `str.replace('\\', '/')` — a single-character substitution, so a
character map is an exact embedding. -/
def backslashToSlash (s : String) : String :=
  String.mk (s.data.map (fun c => if c = '\\' then '/' else c))

/-- Python `str.startswith(p)`. -/
def strStartsWith (s p : String) : Bool :=
  p.data.isPrefixOf s.data

/-! ## PasswordResetToken (apps/api/models/password_reset.py) -/

/-- Row of `password_reset_tokens`.  `expires_at` is kept as an `Option`
because `is_valid` guards on its truthiness (`self.expires_at and ...`);
`used_at` is nullable.  Times are rationals. -/
structure PasswordResetToken where
  expires_at : Option ℚ
  used_at : Option ℚ
  deriving Repr, DecidableEq

namespace PasswordResetToken

/-- Embeds `PasswordResetToken.is_valid` (password_reset.py lines 26-28):
`self.used_at is None and self.expires_at and self.expires_at >= now`. -/
def is_valid (t : PasswordResetToken) (now : ℚ) : Bool :=
  t.used_at == none &&
    match t.expires_at with
    | none => false
    | some e => decide (e ≥ now)

/-- Embeds `PasswordResetToken.mark_used` (password_reset.py lines 30-32):
sets `used_at` to the current time only when it is still `None`. -/
def mark_used (t : PasswordResetToken) (now : ℚ) : PasswordResetToken :=
  if t.used_at = none then { t with used_at := some now } else t

end PasswordResetToken

/-! ## /uploads static handler (apps/api/app.py, serve_uploaded_file) -/

/-- The public allowlist of `serve_uploaded_file` (app.py lines 133-143). -/
def allowed_prefixes : List String :=
  ["marketplace/", "announcements/", "profiles/", "verification/",
   "document_requests/", "benefits/", "issues/", "generated_docs/",
   "exports/"]

/-- Path normalisation of `serve_uploaded_file` (app.py line 127):
`filename.replace('\\', '/').lstrip('/')`. -/
def normalizeUploadPath (filename : String) : String :=
  String.mk ((backslashToSlash filename).data.dropWhile (· = '/'))

/-- Allowlist decision of `serve_uploaded_file` (app.py line 145): the file
is handed to `send_from_directory` exactly when the normalised path starts
with one of the allowed prefixes; otherwise the handler answers 403
`Forbidden`. -/
def serveUploadAllowed (filename : String) : Bool :=
  allowed_prefixes.any (fun p => strStartsWith (normalizeUploadPath filename) p)

/-! ## Data model rows used by the document and benefit routes -/

/-- The fields of a `users` row that the embedded handlers read.  Both
foreign keys are nullable integer columns. -/
structure UserRow where
  municipality_id : Option Int
  barangay_id : Option Int
  deriving Repr, DecidableEq

/-- The fields of a `document_types` row read by `create_document_request`:
`is_active`, the JSON `requirements` list (`none` when the column is not a
list), the nullable numeric `fee`, and `supports_digital`. -/
structure DocumentTypeRow where
  is_active : Bool
  requirements : Option (List String)
  fee : Option ℚ
  supports_digital : Bool
  deriving Repr, DecidableEq

/-- Uniform shape of an embedded handler's HTTP answer: status code, the
`error` value of the JSON body (`none` on success), and whether a newly
created row is still in the database when the response is sent. -/
structure Response where
  status : Nat
  error : Option String
  rowRemains : Bool
  deriving Repr, DecidableEq

/-- The `barangay_id` field of the payload as `create_document_request`
classifies it (documents.py lines 135-141): absent or the empty string,
present but not parseable by `int(...)`, or a parsed integer. -/
inductive BarangayField where
  | absent
  | invalid
  | value (n : Int)
  deriving Repr, DecidableEq

/-- Embeds `requirements = [str(item).strip() for item in dt.requirements if
str(item).strip()]` guarded by `isinstance(dt.requirements, list)`
(documents.py lines 90-92): the stripped, non-blank entries. -/
def nonBlankList : Option (List String) → List String
  | some l => (l.map pyStrip).filter (fun s => s ≠ "")
  | none => []

/-! ## create_document_request (apps/api/routes/documents.py lines 47-218)

Arguments in source order:
  * `user_id`          — `jwt_identity_as_int()` (`none` means it returned `None`);
  * `user`             — `User.query.get(user_id)`;
  * `validation_error` — `some msg` when `validate_required_fields` raises
                         `ValidationError(msg)`, `none` when it passes;
  * `municipality_id`  — `int(data['municipality_id'])`, `none` when the
                         conversion raises;
  * `document_type_id` — `int(data['document_type_id'])`, likewise;
  * `dt`               — `DocumentType.query.get(document_type_id)`;
  * `delivery_method`  — `data.get('delivery_method')`;
  * `reqFiles`         — number of uploaded requirement files with a
                         non-empty filename (zero for JSON bodies);
  * `suppFiles`        — number of uploaded `supporting_files` parts;
  * `barangay_raw`     — the payload's `barangay_id` field;
  * `saveFails`        — whether `save_document_request_file` raises while
                         storing the uploads after the row is committed. -/
def create_document_request
    (user_id : Option Int) (user : Option UserRow)
    (validation_error : Option String)
    (municipality_id : Option Int)
    (document_type_id : Option Int) (dt : Option DocumentTypeRow)
    (delivery_method : Option String)
    (reqFiles suppFiles : Nat)
    (barangay_raw : BarangayField)
    (saveFails : Bool) : Response :=
  match user_id with
  | none => ⟨401, some "Invalid session", false⟩
  | some _ =>
  match user with
  | none => ⟨404, some "User not found", false⟩
  | some user =>
  match validation_error with
  | some msg => ⟨400, some msg, false⟩
  | none =>
  match municipality_id with
  | none => ⟨400, some "Invalid municipality_id", false⟩
  | some municipality_id =>
  if !pyTruthyInt user.municipality_id
      || user.municipality_id.getD 0 != municipality_id then
    ⟨403, some "You can only request documents in your registered municipality", false⟩
  else
  match document_type_id with
  | none => ⟨400, some "Invalid document_type_id", false⟩
  | some _ =>
  match dt with
  | none => ⟨400, some "Selected document type is not available", false⟩
  | some dt =>
  if !dt.is_active then
    ⟨400, some "Selected document type is not available", false⟩
  else
  -- requirement_count = min(len(requirements), 5)
  let requirement_count := min (nonBlankList dt.requirements).length 5
  if requirement_count > 0 && reqFiles < requirement_count then
    ⟨400, some "Missing required attachments", false⟩
  else
  -- requested_method = (data.get('delivery_method') or '').lower()
  let requested_method := pyLower (delivery_method.getD "")
  -- is_zero_fee = float(dt.fee or 0.0) <= 0.0
  let is_zero_fee : Bool := decide (dt.fee.getD 0 ≤ 0)
  let digital_allowed := dt.supports_digital && is_zero_fee
  if requested_method == "digital" && !digital_allowed then
    ⟨400, some "This document can only be requested for in-person pickup", false⟩
  else
  if !pyTruthyInt user.barangay_id then
    ⟨400, some "Please complete your barangay details in your Profile before requesting documents.", false⟩
  else
  match barangay_raw with
  | .invalid => ⟨400, some "Invalid barangay_id", false⟩
  | _ =>
  -- the DocumentRequest row is added and committed here
  if (reqFiles + suppFiles > 0) && saveFails then
    -- rollback, delete the committed row, commit the deletion
    ⟨500, some "Failed to save attachments", false⟩
  else
    ⟨201, none, true⟩

/-! ## create_application (apps/api/routes/benefits.py lines 112-213)

Same argument conventions as `create_document_request`:
  * `program` — `BenefitProgram.query.get(program_id)`;
  * `reqFiles`/`suppFiles` — uploaded requirement / supporting file counts;
  * `saveFails` — whether `save_benefit_document` raises after commit. -/

/-- The fields of a `benefit_programs` row that `create_application`
reads: `is_active`, the nullable `municipality_id` scope, and the JSON
`required_documents` list. -/
structure BenefitProgramRow where
  is_active : Bool
  municipality_id : Option Int
  required_documents : Option (List String)
  deriving Repr, DecidableEq

def create_application
    (user_id : Option Int) (user : Option UserRow)
    (validation_error : Option String)
    (program_id : Option Int) (program : Option BenefitProgramRow)
    (reqFiles suppFiles : Nat)
    (saveFails : Bool) : Response :=
  match user_id with
  | none => ⟨401, some "Invalid session", false⟩
  | some _ =>
  match user with
  | none => ⟨404, some "User not found", false⟩
  | some user =>
  match validation_error with
  | some msg => ⟨400, some msg, false⟩
  | none =>
  match program_id with
  | none => ⟨400, some "Invalid program_id", false⟩
  | some _ =>
  match program with
  | none => ⟨400, some "Invalid program", false⟩
  | some program =>
  if !program.is_active then
    ⟨400, some "Invalid program", false⟩
  else
  -- if program.municipality_id and user.municipality_id != program.municipality_id
  if pyTruthyInt program.municipality_id
      && user.municipality_id != program.municipality_id then
    ⟨403, some "Program not available for your municipality", false⟩
  else
  -- required_docs = non-blank entries, capped by [:5]
  let required_docs := (nonBlankList program.required_documents).take 5
  if required_docs ≠ [] && reqFiles < required_docs.length then
    ⟨400, some "Missing required attachments", false⟩
  else
  -- the BenefitApplication row is added and committed here
  if (reqFiles + suppFiles > 0) && saveFails then
    ⟨500, some "Failed to save attachments", false⟩
  else
    ⟨201, none, true⟩

/-! ## list_programs (apps/api/routes/benefits.py lines 36-98) -/

/-- The fields of a `benefit_programs` row that the expiry sweep of
`list_programs` reads and writes.  `created_at` is a nullable timestamp in
days; a `datetime` is always truthy, so only `none` is falsy there. -/
structure ProgramRow where
  is_active : Bool
  is_accepting_applications : Bool
  duration_days : Option Int
  created_at : Option Int
  completed_at : Option Int
  deriving Repr, DecidableEq

/-- The per-program expiry test of `list_programs` (benefits.py lines
56-60): active, with a truthy `duration_days` and a non-null `created_at`,
and `created_at + timedelta(days=duration_days) <= now`.  With timestamps
in seconds, `timedelta(days=d)` is `d * 86400` seconds. -/
def programExpired (now : Int) (p : ProgramRow) : Bool :=
  p.is_active && pyTruthyInt p.duration_days &&
    match p.created_at with
    | none => false
    | some c => decide (c + p.duration_days.getD 0 * 86400 ≤ now)

/-- The mutation applied to an expired program (benefits.py lines 61-63). -/
def completeProgram (now : Int) (p : ProgramRow) : ProgramRow :=
  if programExpired now p then
    { p with is_active := false, is_accepting_applications := false,
             completed_at := some now }
  else p

/-- Embeds `list_programs` after the query returned `programs` (all rows with
`is_active=True` matching the filters): sweep expired programs, and when
any was swept, commit and drop the now-inactive ones from the returned
list.  Returns the returned list (first) and the `count` of the JSON body
(second); the swept list is the database state after the call. -/
def list_programs (now : Int) (programs : List ProgramRow) :
    List ProgramRow × Nat :=
  let swept := programs.map (completeProgram now)
  let changed := programs.any (programExpired now)
  let returned := if changed then swept.filter (·.is_active) else swept
  (returned, returned.length)

/-! ## get_claim_ticket (apps/api/routes/documents.py lines 260-308) -/

/-- The fields of a `document_requests` row read by `get_claim_ticket` and
`public_verify_document`. -/
structure DocumentRequestRow where
  user_id : Int
  delivery_method : Option String
  status : Option String
  qr_code : Option String
  document_file : Option String
  deriving Repr, DecidableEq

/-- Answer of the claim-ticket endpoint: 404 `Request not found`, 400
`Not a pickup request`, or 200 with the ticket payload, of which we keep
the derived `qr_url`. -/
inductive TicketResponse where
  | notFound
  | notPickup
  | ticket (qr_url : Option String)
  deriving Repr, DecidableEq

/-- Embeds the `get_claim_ticket` body for caller `user_id` on the looked-up row `r`
(documents.py lines 272-306): 404 when the row is missing or not owned,
400 when `(r.delivery_method or '').lower()` is neither `physical` nor
`pickup`, otherwise 200 with the ticket payload built from the stored
`qr_code`/`qr_data` fields — the request's `status` is never consulted. -/
def get_claim_ticket (user_id : Int) (r : Option DocumentRequestRow) :
    TicketResponse :=
  match r with
  | none => .notFound
  | some r =>
    if r.user_id ≠ user_id then .notFound
    else
      let method := pyLower (r.delivery_method.getD "")
      if method ≠ "physical" && method ≠ "pickup" then .notPickup
      else
        let qr_url :=
          if pyTruthyStr r.qr_code then
            some ("/uploads/" ++ backslashToSlash (r.qr_code.getD ""))
          else none
        .ticket qr_url

/-! ## public_verify_document (apps/api/routes/documents.py lines 311-341) -/

/-- JSON body of the public verification endpoint: `valid` plus the
`reason` field present on the invalid answers.  Every branch of the
handler returns HTTP 200. -/
structure VerifyResponse where
  status : Nat
  valid : Bool
  reason : Option String
  deriving Repr, DecidableEq

/-- Embeds `public_verify_document` on the row found by `request_number`
(`none` when no row matches). -/
def public_verify_document (r : Option DocumentRequestRow) : VerifyResponse :=
  match r with
  | none => ⟨200, false, some "not_found"⟩
  | some r =>
    if pyLower (r.delivery_method.getD "") ≠ "digital" then
      ⟨200, false, some "not_digital"⟩
    else if !pyTruthyStr r.document_file then
      ⟨200, false, some "no_file"⟩
    else
      let status := pyLower (r.status.getD "")
      if status ≠ "ready" && status ≠ "completed" then
        ⟨200, false, some ("status_" ++ status)⟩
      else
        ⟨200, true, none⟩

/-! ## Theorems -/

/-- C10: `PasswordResetToken.is_valid` holds exactly when `used_at` is
`None` and `expires_at` is set and not earlier than the current time;
`mark_used` sets `used_at` on the first call, leaves it unchanged on every
later call (idempotent), and afterwards `is_valid` is false. -/
theorem passwordResetToken_is_valid_mark_used_spec
    (t : PasswordResetToken) (now t1 t2 : ℚ) :
    (t.is_valid now = true ↔
      t.used_at = none ∧ ∃ e, t.expires_at = some e ∧ now ≤ e)
    ∧ (t.used_at = none → (t.mark_used t1).used_at = some t1)
    ∧ ((t.mark_used t1).mark_used t2 = t.mark_used t1)
    ∧ ((t.mark_used t1).is_valid now = false) := by
  obtain ⟨e, u⟩ := t
  refine ⟨?_, ?_, ?_, ?_⟩
  · cases u <;> cases e <;>
      simp [PasswordResetToken.is_valid, ge_iff_le]
  · intro h
    simp_all [PasswordResetToken.mark_used]
  · cases u <;> simp [PasswordResetToken.mark_used]
  · cases u <;> simp [PasswordResetToken.mark_used, PasswordResetToken.is_valid]

/-- C10 witness: a fresh token expiring at 10 is valid at time 5. -/
theorem passwordResetToken_spec_witness :
    PasswordResetToken.is_valid ⟨some 10, none⟩ 5 = true :=
  (passwordResetToken_is_valid_mark_used_spec ⟨some 10, none⟩ 5 0 0).1.mpr
    ⟨rfl, 10, rfl, by norm_num⟩

/-- C4 (code bug): the `/uploads` allowlist of `serve_uploaded_file`
contains the private prefix `verification/`, so the normalised path of the
repository's own negative test, `/uploads/verification/user_1/file.jpg`,
passes the allowlist and is handed to `send_from_directory` instead of
being answered with 403 `Forbidden` — contradicting
`test_uploads_allowlist_blocks_private`. -/
theorem serveUploadAllowed_verification_is_public :
    serveUploadAllowed "verification/user_1/file.jpg" = true
    ∧ "verification/" ∈ allowed_prefixes := by
  constructor
  · decide
  · decide

/-- C8: `public_verify_document` always answers HTTP 200; `valid` is true
exactly when the request exists, its lowercased delivery method is
`digital`, its `document_file` is set (non-null, non-empty), and its
lowercased status is `ready` or `completed`; every other case carries the
matching reason (`not_found`, `not_digital`, `no_file`, or
`status_<lowercased status>`). -/
theorem public_verify_document_spec (r : Option DocumentRequestRow) :
    (public_verify_document r).status = 200
    ∧ ((public_verify_document r).valid = true ↔
        ∃ x, r = some x
          ∧ pyLower (x.delivery_method.getD "") = "digital"
          ∧ pyTruthyStr x.document_file = true
          ∧ (pyLower (x.status.getD "") = "ready"
              ∨ pyLower (x.status.getD "") = "completed"))
    ∧ (r = none → (public_verify_document r).reason = some "not_found")
    ∧ (∀ x, r = some x →
        pyLower (x.delivery_method.getD "") ≠ "digital" →
        (public_verify_document r).reason = some "not_digital")
    ∧ (∀ x, r = some x →
        pyLower (x.delivery_method.getD "") = "digital" →
        pyTruthyStr x.document_file = false →
        (public_verify_document r).reason = some "no_file")
    ∧ (∀ x, r = some x →
        pyLower (x.delivery_method.getD "") = "digital" →
        pyTruthyStr x.document_file = true →
        pyLower (x.status.getD "") ≠ "ready" →
        pyLower (x.status.getD "") ≠ "completed" →
        (public_verify_document r).reason
          = some ("status_" ++ pyLower (x.status.getD ""))) := by
  refine ⟨?_, ?_, ?_, ?_, ?_, ?_⟩
  · cases r with
    | none => rfl
    | some x =>
      simp only [public_verify_document]
      split_ifs <;> rfl
  · cases r with
    | none => simp [public_verify_document]
    | some x =>
      simp only [public_verify_document]
      split_ifs with h1 h2 h3 <;>
        simp_all [Bool.and_eq_true, decide_eq_true_eq, not_or,
          Bool.not_eq_true']
      tauto
  · rintro rfl; rfl
  · rintro x rfl hx
    simp [public_verify_document, hx]
  · rintro x rfl hx hf
    simp [public_verify_document, hx, hf]
  · rintro x rfl hx hf h1 h2
    simp [public_verify_document, hx, hf, h1, h2]

/-- C8 witness: a ready digital request with a stored file verifies. -/
theorem public_verify_document_spec_witness :
    (public_verify_document
        (some ⟨7, some "Digital", some "Ready", none, some "f.pdf"⟩)).valid
      = true :=
  (public_verify_document_spec
      (some ⟨7, some "Digital", some "Ready", none, some "f.pdf"⟩)).2.1.mpr
    ⟨⟨7, some "Digital", some "Ready", none, some "f.pdf"⟩, rfl,
      by decide, by decide, Or.inl (by decide)⟩

/-- C3 counterexample: the claim requires ticket data only for approved
requests, but `get_claim_ticket` never reads the request's status: a
still-pending pickup request owned by the caller is answered 200 with the
ticket payload. -/
theorem get_claim_ticket_pending_counterexample :
    get_claim_ticket 7 (some ⟨7, some "pickup", some "pending", none, none⟩)
      = .ticket none := by decide

/-- C3 (amended): `get_claim_ticket` answers 404 `Request not found` when
the request is missing or not owned by the caller, 400 `Not a pickup
request` when the owned request's lowercased delivery method is neither
`physical` nor `pickup`, and otherwise 200 with the ticket payload built
from the stored qr fields — without consulting the approval status. -/
theorem get_claim_ticket_spec (uid : Int) (r : Option DocumentRequestRow) :
    (r = none → get_claim_ticket uid r = .notFound)
    ∧ (∀ x, r = some x → x.user_id ≠ uid → get_claim_ticket uid r = .notFound)
    ∧ (∀ x, r = some x → x.user_id = uid →
        pyLower (x.delivery_method.getD "") ≠ "physical" →
        pyLower (x.delivery_method.getD "") ≠ "pickup" →
        get_claim_ticket uid r = .notPickup)
    ∧ (∀ x, r = some x → x.user_id = uid →
        (pyLower (x.delivery_method.getD "") = "physical"
          ∨ pyLower (x.delivery_method.getD "") = "pickup") →
        ∃ q, get_claim_ticket uid r = .ticket q) := by
  refine ⟨?_, ?_, ?_, ?_⟩
  · rintro rfl; rfl
  · rintro x rfl hown
    simp [get_claim_ticket, hown]
  · rintro x rfl hown h1 h2
    simp [get_claim_ticket, hown, h1, h2]
  · rintro x rfl hown hm
    refine ⟨if pyTruthyStr x.qr_code then
        some ("/uploads/" ++ backslashToSlash (x.qr_code.getD "")) else none, ?_⟩
    rcases hm with hm | hm <;> simp [get_claim_ticket, hown, hm]

/-- C3 witness: a non-owned request is answered 404. -/
theorem get_claim_ticket_spec_witness :
    get_claim_ticket 7 (some ⟨8, some "pickup", some "approved", none, none⟩)
      = .notFound :=
  (get_claim_ticket_spec 7
      (some ⟨8, some "pickup", some "approved", none, none⟩)).2.1
    ⟨8, some "pickup", some "approved", none, none⟩ rfl (by decide)

/-- C1 counterexample: `if not user.municipality_id or ...` treats a zero
`municipality_id` as unset, so a user whose `municipality_id` is `0`
requesting in municipality `0` is rejected with 403 although the two
values are equal — the claim says the check passes when they are equal. -/
theorem create_document_request_equal_zero_municipality_rejected :
    create_document_request (some 7) (some ⟨some 0, some 3⟩) none (some 0)
      (some 1) (some ⟨true, some [], none, false⟩) (some "pickup") 0 0
      .absent false
      = ⟨403,
          some "You can only request documents in your registered municipality",
          false⟩ := by decide

/-- C1 (amended): when the requesting user's `municipality_id` is unset,
zero, or differs from the payload's integer `municipality_id`, the
endpoint answers 403 `You can only request documents in your registered
municipality` and creates no row; when they are equal and nonzero the
check passes (no later branch answers 403). -/
theorem create_document_request_municipality_scope
    (uid : Int) (user : UserRow) (mid : Int)
    (dtid : Option Int) (dt : Option DocumentTypeRow) (dm : Option String)
    (rf sf : Nat) (br : BarangayField) (sv : Bool) :
    ((user.municipality_id = some 0 ∨ user.municipality_id ≠ some mid) →
      create_document_request (some uid) (some user) none (some mid)
          dtid dt dm rf sf br sv
        = ⟨403,
            some "You can only request documents in your registered municipality",
            false⟩)
    ∧ (user.municipality_id = some mid → mid ≠ 0 →
      (create_document_request (some uid) (some user) none (some mid)
          dtid dt dm rf sf br sv).status ≠ 403) := by
  constructor
  · intro h
    have hcond : (!pyTruthyInt user.municipality_id
        || user.municipality_id.getD 0 != mid) = true := by
      rcases h with h | h
      · simp [h, pyTruthyInt]
      · cases hm : user.municipality_id with
        | none => simp [pyTruthyInt]
        | some v =>
          have hv : v ≠ mid := by rintro rfl; exact h hm
          simp [pyTruthyInt, hv]
    simp only [create_document_request, hcond, if_true]
  · intro h hmid0
    have hcond : (!pyTruthyInt user.municipality_id
        || user.municipality_id.getD 0 != mid) = false := by
      simp [h, pyTruthyInt, hmid0]
    simp only [create_document_request, hcond, Bool.false_eq_true, if_false]
    rcases dtid with _ | dtid
    · simp
    rcases dt with _ | dt
    · simp
    rcases br with _ | _ | b <;> (repeat' split) <;> simp

/-- C1 witness: a user registered in municipality 5 requesting in
municipality 3 is rejected with 403. -/
theorem create_document_request_municipality_scope_witness :
    create_document_request (some 7) (some ⟨some 5, some 3⟩) none (some 3)
      (some 1) (some ⟨true, some [], none, false⟩) (some "pickup") 0 0
      .absent false
      = ⟨403,
          some "You can only request documents in your registered municipality",
          false⟩ :=
  (create_document_request_municipality_scope 7 ⟨some 5, some 3⟩ 3
      (some 1) (some ⟨true, some [], none, false⟩) (some "pickup") 0 0
      .absent false).1 (Or.inr (by decide))

/-- C2: a document request reaching the delivery-rule check (municipality
scoping passed, document type active, attachments sufficient) is accepted
with `delivery_method` `digital` only when the type supports digital
delivery and its fee (`dt.fee or 0.0`) is at most zero; when either
condition fails the endpoint answers 400 `This document can only be
requested for in-person pickup` and creates no row. -/
theorem create_document_request_digital_rule
    (uid : Int) (user : UserRow) (mid : Int) (dtid : Int)
    (dt : DocumentTypeRow) (dm : Option String)
    (rf sf : Nat) (br : BarangayField) (sv : Bool)
    (hscope : user.municipality_id = some mid) (hmid : mid ≠ 0)
    (hactive : dt.is_active = true)
    (hfiles : ¬(0 < min (nonBlankList dt.requirements).length 5
        ∧ rf < min (nonBlankList dt.requirements).length 5)) :
    (pyLower (dm.getD "") = "digital" →
      ¬(dt.supports_digital = true ∧ dt.fee.getD 0 ≤ 0) →
      create_document_request (some uid) (some user) none (some mid)
          (some dtid) (some dt) dm rf sf br sv
        = ⟨400,
            some "This document can only be requested for in-person pickup",
            false⟩)
    ∧ ((create_document_request (some uid) (some user) none (some mid)
          (some dtid) (some dt) dm rf sf br sv).status = 201 →
        pyLower (dm.getD "") = "digital" →
        dt.supports_digital = true ∧ dt.fee.getD 0 ≤ 0) := by
  have hcond : (!pyTruthyInt user.municipality_id
      || user.municipality_id.getD 0 != mid) = false := by
    simp [hscope, pyTruthyInt, hmid]
  have hreq : (decide (min (nonBlankList dt.requirements).length 5 > 0)
      && decide (rf < min (nonBlankList dt.requirements).length 5)) = false := by
    rcases Nat.eq_zero_or_pos (min (nonBlankList dt.requirements).length 5)
      with h0 | hpos
    · simp [h0]
    · have hge : ¬ rf < min (nonBlankList dt.requirements).length 5 :=
        fun hlt => hfiles ⟨hpos, hlt⟩
      simp [hge]
  have parta : pyLower (dm.getD "") = "digital" →
      ¬(dt.supports_digital = true ∧ dt.fee.getD 0 ≤ 0) →
      create_document_request (some uid) (some user) none (some mid)
          (some dtid) (some dt) dm rf sf br sv
        = ⟨400,
            some "This document can only be requested for in-person pickup",
            false⟩ := by
    intro hdm hnot
    have hdig : (pyLower (dm.getD "") == "digital"
        && !(dt.supports_digital && decide (dt.fee.getD 0 ≤ 0))) = true := by
      have h2 : (dt.supports_digital && decide (dt.fee.getD 0 ≤ 0)) = false := by
        cases hs : dt.supports_digital
        · simp
        · have : ¬ dt.fee.getD 0 ≤ 0 := fun hle => hnot ⟨hs, hle⟩
          simp [this]
      simp [hdm, h2]
    simp only [create_document_request, hcond, Bool.false_eq_true, if_false,
      hactive, Bool.not_true, hreq, hdig, if_true]
  refine ⟨parta, ?_⟩
  intro h201 hdm
  by_cases hcase : dt.supports_digital = true ∧ dt.fee.getD 0 ≤ 0
  · exact hcase
  · exfalso
    rw [parta hdm hcase] at h201
    simp at h201

/-- C2 witness: a digital request for a supported type with fee 50 is
rejected as pickup-only. -/
theorem create_document_request_digital_rule_witness :
    create_document_request (some 7) (some ⟨some 5, some 3⟩) none (some 5)
      (some 1) (some ⟨true, some [], some 50, true⟩) (some "digital") 0 0
      .absent false
      = ⟨400,
          some "This document can only be requested for in-person pickup",
          false⟩ :=
  (create_document_request_digital_rule 7 ⟨some 5, some 3⟩ 5 1
      ⟨true, some [], some 50, true⟩ (some "digital") 0 0 .absent false
      rfl (by decide) rfl (by decide)).1 (by decide)
    (by rintro ⟨-, hle⟩; exact absurd hle (by norm_num))

/-- C5: when the selected document type lists at least one non-blank
requirement string, a request reaching the attachment check succeeds only
with at least `min(number of non-blank requirements, 5)` uploaded
requirement files; with fewer the endpoint answers 400 `Missing required
attachments` and creates no row. -/
theorem create_document_request_required_attachments
    (uid : Int) (user : UserRow) (mid : Int) (dtid : Int)
    (dt : DocumentTypeRow) (dm : Option String)
    (rf sf : Nat) (br : BarangayField) (sv : Bool)
    (hscope : user.municipality_id = some mid) (hmid : mid ≠ 0)
    (hactive : dt.is_active = true) :
    (0 < (nonBlankList dt.requirements).length →
      rf < min (nonBlankList dt.requirements).length 5 →
      create_document_request (some uid) (some user) none (some mid)
          (some dtid) (some dt) dm rf sf br sv
        = ⟨400, some "Missing required attachments", false⟩)
    ∧ ((create_document_request (some uid) (some user) none (some mid)
          (some dtid) (some dt) dm rf sf br sv).status = 201 →
        min (nonBlankList dt.requirements).length 5 ≤ rf) := by
  have hcond : (!pyTruthyInt user.municipality_id
      || user.municipality_id.getD 0 != mid) = false := by
    simp [hscope, pyTruthyInt, hmid]
  have parta : 0 < (nonBlankList dt.requirements).length →
      rf < min (nonBlankList dt.requirements).length 5 →
      create_document_request (some uid) (some user) none (some mid)
          (some dtid) (some dt) dm rf sf br sv
        = ⟨400, some "Missing required attachments", false⟩ := by
    intro hlen hlt
    have hreq : (decide (min (nonBlankList dt.requirements).length 5 > 0)
        && decide (rf < min (nonBlankList dt.requirements).length 5)) = true := by
      have hpos : 0 < min (nonBlankList dt.requirements).length 5 :=
        lt_min hlen (by norm_num)
      simp [hpos, hlt]
    simp only [create_document_request, hcond, Bool.false_eq_true, if_false,
      hactive, Bool.not_true, hreq, if_true]
  refine ⟨parta, ?_⟩
  intro h201
  by_cases hge : min (nonBlankList dt.requirements).length 5 ≤ rf
  · exact hge
  · exfalso
    push_neg at hge
    have hpos : 0 < min (nonBlankList dt.requirements).length 5 :=
      Nat.lt_of_le_of_lt (Nat.zero_le rf) hge
    have hlen : 0 < (nonBlankList dt.requirements).length :=
      lt_of_lt_of_le hpos (min_le_left _ _)
    rw [parta hlen hge] at h201
    simp at h201

/-- C5 witness: a type listing two non-blank requirements with a single
uploaded file is rejected with 400 `Missing required attachments`. -/
theorem create_document_request_required_attachments_witness :
    create_document_request (some 7) (some ⟨some 5, some 3⟩) none (some 5)
      (some 1) (some ⟨true, some ["a", " ", "b"], none, false⟩)
      (some "pickup") 1 0 .absent false
      = ⟨400, some "Missing required attachments", false⟩ :=
  (create_document_request_required_attachments 7 ⟨some 5, some 3⟩ 5 1
      ⟨true, some ["a", " ", "b"], none, false⟩ (some "pickup") 1 0
      .absent false rfl (by decide) rfl).1 (by decide) (by decide)

/-- C7 counterexample: `if program.municipality_id and ...` treats a zero
program `municipality_id` as province-wide, so an applicant from
municipality 1 is admitted (201) to a program whose `municipality_id` is
the non-null value `0` — the claim says any non-null, different value is
rejected with 403. -/
theorem create_application_zero_program_municipality_admitted :
    create_application (some 7) (some ⟨some 1, some 3⟩) none (some 2)
      (some ⟨true, some 0, some []⟩) 0 0 false
      = ⟨201, none, true⟩ := by decide

/-- C7 (amended): an application to an active program whose
`municipality_id` is non-null and nonzero and differs from the applicant's
`municipality_id` is rejected with 403 `Program not available for your
municipality` and creates no row; a program whose `municipality_id` is
null passes the scoping check (no later branch answers 403). -/
theorem create_application_municipality_scope
    (uid : Int) (user : UserRow) (pid : Int) (program : BenefitProgramRow)
    (rf sf : Nat) (sv : Bool)
    (hactive : program.is_active = true) :
    (∀ p, program.municipality_id = some p → p ≠ 0 →
      user.municipality_id ≠ some p →
      create_application (some uid) (some user) none (some pid)
          (some program) rf sf sv
        = ⟨403, some "Program not available for your municipality", false⟩)
    ∧ (program.municipality_id = none →
      (create_application (some uid) (some user) none (some pid)
          (some program) rf sf sv).status ≠ 403) := by
  constructor
  · intro p hp hp0 hdiff
    have hcond : (pyTruthyInt program.municipality_id
        && user.municipality_id != program.municipality_id) = true := by
      simp [hp, pyTruthyInt, hp0, hdiff]
    simp only [create_application, hactive, Bool.not_true, Bool.false_eq_true,
      if_false, hcond, if_true]
  · intro hp
    have hcond : (pyTruthyInt program.municipality_id
        && user.municipality_id != program.municipality_id) = false := by
      simp [hp, pyTruthyInt]
    simp only [create_application, hactive, Bool.not_true, Bool.false_eq_true,
      if_false, hcond]
    (repeat' split) <;> simp

/-- C7 witness: an applicant from municipality 1 applying to a program
scoped to municipality 2 is rejected with 403. -/
theorem create_application_municipality_scope_witness :
    create_application (some 7) (some ⟨some 1, some 3⟩) none (some 2)
      (some ⟨true, some 2, some []⟩) 0 0 false
      = ⟨403, some "Program not available for your municipality", false⟩ :=
  (create_application_municipality_scope 7 ⟨some 1, some 3⟩ 2
      ⟨true, some 2, some []⟩ 0 0 false rfl).1 2 rfl (by decide) (by decide)

/-- C6: both creation endpoints answer a `ValidationError` with HTTP 400
and the error message in the JSON `error` key, leaving no row behind; when
storing the uploads fails after the row was committed, the row is deleted
again, so no partially-attached record remains, and every 500 answer of
the embedded handlers is exactly the `Failed to save attachments` response
with no surviving row. -/
theorem create_routes_error_handling
    (uid : Int) (user : UserRow) (msg : String)
    (uidO : Option Int) (userO : Option UserRow) (ve : Option String)
    (mid dtid : Option Int) (dt : Option DocumentTypeRow) (dm : Option String)
    (rf sf : Nat) (br : BarangayField) (sv : Bool)
    (pid : Option Int) (program : Option BenefitProgramRow) :
    (create_document_request (some uid) (some user) (some msg)
        mid dtid dt dm rf sf br sv = ⟨400, some msg, false⟩)
    ∧ (create_application (some uid) (some user) (some msg)
        pid program rf sf sv = ⟨400, some msg, false⟩)
    ∧ (sv = true → 0 < rf + sf →
        (create_document_request uidO userO ve mid dtid dt dm rf sf br
            sv).rowRemains = false)
    ∧ (sv = true → 0 < rf + sf →
        (create_application uidO userO ve pid program rf sf sv).rowRemains
          = false)
    ∧ ((create_document_request uidO userO ve mid dtid dt dm rf sf br
          sv).status = 500 →
        create_document_request uidO userO ve mid dtid dt dm rf sf br sv
          = ⟨500, some "Failed to save attachments", false⟩)
    ∧ ((create_application uidO userO ve pid program rf sf sv).status = 500 →
        create_application uidO userO ve pid program rf sf sv
          = ⟨500, some "Failed to save attachments", false⟩) := by
  have hdoc : ((create_document_request uidO userO ve mid dtid dt dm rf sf br
        sv).status = 500 →
      create_document_request uidO userO ve mid dtid dt dm rf sf br sv
        = ⟨500, some "Failed to save attachments", false⟩)
      ∧ (sv = true → 0 < rf + sf →
        (create_document_request uidO userO ve mid dtid dt dm rf sf br
            sv).rowRemains = false) := by
    simp only [create_document_request]
    (repeat' split) <;> refine ⟨?_, ?_⟩ <;> intros <;> simp_all
  have happ : ((create_application uidO userO ve pid program rf sf sv).status
        = 500 →
      create_application uidO userO ve pid program rf sf sv
        = ⟨500, some "Failed to save attachments", false⟩)
      ∧ (sv = true → 0 < rf + sf →
        (create_application uidO userO ve pid program rf sf
            sv).rowRemains = false) := by
    simp only [create_application]
    (repeat' split) <;> refine ⟨?_, ?_⟩ <;> intros <;> simp_all
  exact ⟨rfl, rfl, hdoc.2, happ.2, hdoc.1, happ.1⟩

/-- C6 witness: a failing attachment save after commit leaves no row. -/
theorem create_routes_error_handling_witness :
    (create_document_request (some 7) (some ⟨some 5, some 3⟩) none (some 5)
        (some 1) (some ⟨true, some ["a"], none, false⟩) (some "pickup") 1 0
        .absent true).rowRemains = false :=
  (create_routes_error_handling 7 ⟨some 5, some 3⟩ "msg"
      (some 7) (some ⟨some 5, some 3⟩) none (some 5)
      (some 1) (some ⟨true, some ["a"], none, false⟩) (some "pickup") 1 0
      .absent true (some 1) (some ⟨true, none, some []⟩)).2.2.1 rfl
    (by decide)

/-- C9 counterexample: `if p.is_active and p.duration_days and ...` treats
a zero `duration_days` as "no duration", so an active program created at
time 0 with `duration_days = 0` is still returned at time 500000 although
`created_at + duration_days` has long passed — the claim says it is
excluded. -/
theorem list_programs_zero_duration_not_pruned :
    list_programs 500000 [⟨true, true, some 0, some 0, none⟩]
      = ([⟨true, true, some 0, some 0, none⟩], 1) := by decide

/-- C9 (amended): `list_programs` marks every active program with a
non-null nonzero `duration_days` and non-null `created_at` satisfying
`created_at + duration_days ≤ now` as inactive and non-accepting with
`completed_at` set, returns only unexpired active programs, and reports
`count` as the length of the returned list. -/
theorem list_programs_prunes_expired (now : Int) (ps : List ProgramRow)
    (hall : ∀ p ∈ ps, p.is_active = true) :
    (∀ p ∈ ps, programExpired now p = true →
      completeProgram now p
        = { p with is_active := false, is_accepting_applications := false,
                   completed_at := some now })
    ∧ (∀ q ∈ (list_programs now ps).1,
        q.is_active = true ∧ programExpired now q = false)
    ∧ (list_programs now ps).2 = (list_programs now ps).1.length := by
  refine ⟨?_, ?_, rfl⟩
  · intro p hp hexp
    simp [completeProgram, hexp]
  · intro q hq
    simp only [list_programs] at hq
    by_cases hch : ps.any (programExpired now) = true
    · rw [if_pos hch] at hq
      rcases List.mem_filter.mp hq with ⟨hmem, hact⟩
      rcases List.mem_map.mp hmem with ⟨p, hp, rfl⟩
      by_cases hexp : programExpired now p = true
      · exfalso
        simp [completeProgram, hexp] at hact
      · have hid : completeProgram now p = p := by
          simp [completeProgram, hexp]
        rw [hid]
        exact ⟨hall p hp, Bool.not_eq_true _ ▸ hexp⟩
    · have hnone : ∀ p ∈ ps, programExpired now p = false := by
        intro p hp
        by_contra h
        exact hch (List.any_eq_true.mpr ⟨p, hp, Bool.not_eq_false _ ▸ h⟩)
      rw [if_neg hch] at hq
      rcases List.mem_map.mp hq with ⟨p, hp, rfl⟩
      have hid : completeProgram now p = p := by
        simp [completeProgram, hnone p hp]
      rw [hid]
      exact ⟨hall p hp, hnone p hp⟩

/-- C9 witness: an expired three-day program gets completed at the sweep
time. -/
theorem list_programs_prunes_expired_witness :
    completeProgram 500000 ⟨true, true, some 3, some 0, none⟩
      = ⟨false, false, some 3, some 0, some 500000⟩ :=
  (list_programs_prunes_expired 500000 [⟨true, true, some 3, some 0, none⟩]
      (by decide)).1 ⟨true, true, some 3, some 0, none⟩ (by decide) (by decide)

end MunLink
